import Mathlib

/-!
Verification development for the Printrun G-code visualization core
(`printrun/gl/actors.py` and `printrun/gl/camera.py`).

The Python source is shallowly embedded over `ℝ`:
`math.atan2 y x` is `Complex.arg ⟨x, y⟩`, `math.sqrt` is `Real.sqrt`,
the Python float modulo `a % b` (for `b > 0`) is `a - b * ⌊a / b⌋`,
and `math.tau` is `2 * Real.pi`.  Machine `GLuint` stores are modelled
as `ℤ` values reduced mod `2 ^ 32`.  The growable numpy buffers are
modelled by the lists of the values actually written (the resize /
capacity management in the source only affects slack that the final
`resize`-to-exact-size trim removes, never the written content).
-/

namespace Printrun

noncomputable section

/-- A 3-component vector (numpy `(x, y, z)` triples in the source). -/
structure Vec3 where
  x : ℝ
  y : ℝ
  z : ℝ

/-- Python `math.atan2 y x`, embedded as the complex argument of `x + y*I`:
both return the angle of `(x, y)` in `(-π, π]`, with `atan2 0 0 = 0`. -/
def atan2 (y x : ℝ) : ℝ := Complex.arg ⟨x, y⟩

/-- Python float modulo `a % b` for `b > 0` (result in `[0, b)`),
used by the source for `(delta_angle + math.tau) % math.tau`. -/
def pymod (a b : ℝ) : ℝ := a - b * (⌊a / b⌋ : ℝ)

/-- Arc direction of a motion command: `G2` is clockwise, `G3` is
counter-clockwise.  Any other command word behaves as a linear move in
`interpolate_arcs` (the source tests `gline.command in ('G2', 'G3')`). -/
inductive ArcDir where
  | cw : ArcDir
  | ccw : ArcDir

/-- One parsed G-code motion line, with the fields of a `gcoder` line that
`actors.py` reads: raw target words `x y z` and arc offsets `i j`
(absent = `None`), the command kind, the `is_move` and `extruding` flags,
the active tool and the resolved absolute end position `current_x/y/z`. -/
structure GLine where
  is_move : Bool := true
  command : Option ArcDir := none
  x : Option ℝ := none
  y : Option ℝ := none
  z : Option ℝ := none
  i : Option ℝ := none
  j : Option ℝ := none
  extruding : Bool := false
  current_tool : ℕ := 0
  current_x : ℝ := 0
  current_y : ℝ := 0
  current_z : ℝ := 0

instance : Inhabited GLine := ⟨{}⟩

/-- Source `triangulate_rectangle`: two triangles for one quad. -/
def triangulate_rectangle (i1 i2 i3 i4 : ℤ) : List ℤ :=
  [i1, i4, i3, i3, i2, i1]

/-- Source `triangulate_box`: the four side faces joining two quads. -/
def triangulate_box (i1 i2 i3 i4 j1 j2 j3 j4 : ℤ) : List ℤ :=
  [i1, i2, j2, j2, j1, i1, i2, i3, j3, j3, j2, i2,
   i3, i4, j4, j4, j3, i3, i4, i1, j1, j1, j4, i4]

/-- Arc radius `r = sqrt(rx*rx + ry*ry)` with absent offsets read as 0
(source lines 832-834). -/
def arc_radius (g : GLine) : ℝ :=
  let rx := g.i.getD 0
  let ry := g.j.getD 0
  Real.sqrt (rx * rx + ry * ry)

/-- Signed sweep angle of an arc command: `a_end - a_start`, forced to the
sign matching the direction by adding / subtracting a full turn
(source lines 839-848). -/
def arc_sweep (g prev : GLine) (dir : ArcDir) : ℝ :=
  let rx := g.i.getD 0
  let ry := g.j.getD 0
  let cx := prev.current_x + rx
  let cy := prev.current_y + ry
  let a_start := atan2 (-ry) (-rx)
  let a_end := atan2 (g.current_y - cy) (g.current_x - cx)
  let d := a_end - a_start
  match dir with
  | ArcDir.ccw => if d ≤ 0 then d + 2 * Real.pi else d
  | ArcDir.cw => if 0 ≤ d then d - 2 * Real.pi else d

/-- Number of interpolated arc segments:
`min(ceil(|sweep| * r * 2 / 0.5), 100)` (source lines 854-855). -/
def arc_segments (g prev : GLine) (dir : ArcDir) : ℕ :=
  min ⌈|arc_sweep g prev dir| * arc_radius g * 2 / 0.5⌉₊ 100

/-- The interpolated (flag = `true`) points of an arc command
(source lines 857-866). -/
def arc_mids (g prev : GLine) (dir : ArcDir) : List (Vec3 × Bool) :=
  let rx := g.i.getD 0
  let ry := g.j.getD 0
  let r := arc_radius g
  let cx := prev.current_x + rx
  let cy := prev.current_y + ry
  let a_start := atan2 (-ry) (-rx)
  let a_delta := arc_sweep g prev dir
  let z0 := prev.current_z
  let dz := g.current_z - z0
  let segments := arc_segments g prev dir
  (List.range segments).map fun (t : ℕ) =>
    (⟨cx + Real.cos ((t : ℝ) / (segments : ℝ) * a_delta + a_start) * r,
      cy + Real.sin ((t : ℝ) / (segments : ℝ) * a_delta + a_start) * r,
      z0 + (t : ℝ) / (segments : ℝ) * dz⟩, true)

/-- Source `interpolate_arcs(gline, prev_gline)`: for `G2`/`G3` commands it
yields the interpolated points (flag `true`) followed by the resolved
target with flag `false`; for every other command only the target.
`prev_gline` is only read on the arc path (the source would raise
`AttributeError` on a leading arc; we read a default line there). -/
def interpolate_arcs (gline : GLine) (prev_gline : Option GLine) :
    List (Vec3 × Bool) :=
  (match gline.command with
   | some dir => arc_mids gline (prev_gline.getD default) dir
   | none => [])
  ++ [(⟨gline.current_x, gline.current_y, gline.current_z⟩, false)]

/-- The ground plane normal used by `Camera._set_target_to_ground`. -/
def plane_normal : Vec3 := ⟨0, 0, 1⟩

/-- Dot product of two vectors (numpy `dot`). -/
def dot3 (a b : Vec3) : ℝ := a.x * b.x + a.y * b.y + a.z * b.z

/-- Componentwise vector addition. -/
def vadd (a b : Vec3) : Vec3 := ⟨a.x + b.x, a.y + b.y, a.z + b.z⟩

/-- Scalar multiplication of a vector. -/
def smul3 (t : ℝ) (a : Vec3) : Vec3 := ⟨t * a.x, t * a.y, t * a.z⟩

/-- Source `Camera._set_target_to_ground(target_vec, eye_vec,
unit_direction)` (camera.py lines 271-286): intersect the view ray with
the plane `z = 0`; keep the old target when the ray is parallel to the
plane or the hit is behind the eye. -/
def set_target_to_ground (target_vec eye_vec unit_direction : Vec3) : Vec3 :=
  let q := dot3 unit_direction plane_normal
  if q = 0 then target_vec
  else
    let t := -(dot3 eye_vec plane_normal) / q
    if t < 0 then target_vec
    else vadd eye_vec (smul3 t unit_direction)

/-- Demo arc for concrete scenario 2: `G2 X10 I5 J0` from the origin. -/
def g2demo : GLine :=
  { command := some ArcDir.cw, i := some 5, j := some 0, x := some 10,
    extruding := true, current_x := 10, current_y := 0, current_z := 0 }

/-- Previous line for the demo arc: resolved position at the origin. -/
def prev0 : GLine := {}

/-- Travel color of `GcodeModel` (RGBA). -/
def color_travel : List ℝ := [0.8, 0.8, 0.8, 1.0]

/-- Tool 0 color of `GcodeModel` (RGBA). -/
def color_tool0 : List ℝ := [1.0, 0.0, 0.0, 1.0]

/-- Tool 1 color of `GcodeModel` (RGBA). -/
def color_tool1 : List ℝ := [0.67, 0.05, 0.9, 1.0]

/-- Tool 2 color of `GcodeModel` (RGBA). -/
def color_tool2 : List ℝ := [1.0, 0.8, 0.0, 1.0]

/-- Tool 3 color of `GcodeModel` (RGBA). -/
def color_tool3 : List ℝ := [1.0, 0.0, 0.62, 1.0]

/-- Tool 4 color of `GcodeModel` (RGBA). -/
def color_tool4 : List ℝ := [0.0, 1.0, 0.58, 1.0]

/-- Source `Model.movement_color` with the `GcodeModel` color table:
tool color when extruding, travel color otherwise. -/
def movement_color (g : GLine) : List ℝ :=
  if g.extruding then
    if g.current_tool = 0 then color_tool0
    else if g.current_tool = 1 then color_tool1
    else if g.current_tool = 2 then color_tool2
    else if g.current_tool = 3 then color_tool3
    else color_tool4
  else color_travel

/-- Store of a Python `int` into a numpy `GLuint` (uint32) slot: the value
is reduced mod `2 ^ 32` (negative values wrap; newer numpy raises
`OverflowError` instead, either way the intended index is lost). -/
def storeGLuint (z : ℤ) : ℕ := (z % (2 ^ 32)).toNat

/-- The mutable state of `GcodeModel.load_data` (actors.py lines 913-1219):
buffers are the lists of values actually written (10 floats per print
vertex: position, RGBA color, normal), the `*_k` write cursors, the four
running-count sequences, the layer bookkeeping and the previous-move
registers threaded through the loop. -/
structure LoadState where
  vertices : List ℝ
  travels : List ℝ
  indices : List ℕ
  vertex_k : ℕ
  travel_vertex_k : ℕ
  index_k : ℕ
  layer_stops : List ℕ
  count_print_indices : List ℕ
  count_print_vertices : List ℕ
  count_travel_indices : List ℕ
  layer_idxs_map : List (ℕ × ℕ)
  prev_move_normal_x : ℝ
  prev_move_normal_y : ℝ
  prev_move_angle : ℝ
  prev_pos : Vec3
  prev_gline : Option GLine
  prev_extruding : Bool
  max_layers : ℕ
  num_layers_to_draw : ℕ
  printed_until : ℕ
  only_current : Bool
  loaded : Bool
  fully_loaded : Bool

/-- Truthiness of `prev_gline and prev_gline.extruding` in the source's
join condition (`None` is falsy). -/
def prevGlineExtruding : Option GLine → Bool
  | some pg => pg.extruding
  | none => false

/-- Source inner helper `compute_vertices(move_x, move_y, ...)`: the four
(position, normal) pairs of one diamond cross-section at `pos`. -/
def compute_vertices (move_x move_y : ℝ) (pos : Vec3) (divisor : ℝ)
    (path_hw path_hh : ℝ) : List (Vec3 × Vec3) :=
  let hw := path_hw / divisor
  let p1x := pos.x - hw * move_x
  let p2x := pos.x + hw * move_x
  let p1y := pos.y - hw * move_y
  let p2y := pos.y + hw * move_y
  [(⟨pos.x, pos.y, pos.z + path_hh⟩, ⟨0, 0, 1⟩),
   (⟨p1x, p1y, pos.z⟩, ⟨-move_x, -move_y, 0⟩),
   (⟨pos.x, pos.y, pos.z - path_hh⟩, ⟨0, 0, -1⟩),
   (⟨p2x, p2y, pos.z⟩, ⟨move_x, move_y, 0⟩)]

/-- The floats written for a list of print vertices: per vertex position,
RGBA color, then normal (source lines 1157-1162). -/
def vertexChunk (color : List ℝ) (pairs : List (Vec3 × Vec3)) : List ℝ :=
  pairs.foldr
    (fun pr acc =>
      [pr.1.x, pr.1.y, pr.1.z] ++ color ++ [pr.2.x, pr.2.y, pr.2.z] ++ acc)
    []

/-- Source `travel_attributes`: travel color plus an upward normal. -/
def travel_attributes : List ℝ := color_travel ++ [0.0, 0.0, 1.0]

/-- The 20 floats written for one travel segment (source lines 1016-1020). -/
def travelChunk (pp cp : Vec3) : List ℝ :=
  [pp.x, pp.y, pp.z] ++ travel_attributes ++ [cp.x, cp.y, cp.z] ++ travel_attributes

/-- First `is_move` line of a layer suffix (inner scan of
`get_next_move`). -/
def findIsMove : List GLine → Option GLine
  | [] => none
  | g :: rest => if g.is_move then some g else findIsMove rest

/-- First `is_move` line of any of the remaining layers (outer scan of
`get_next_move`). -/
def firstMoveInLayers : List (List GLine) → Option GLine
  | [] => none
  | l :: rest =>
    match findIsMove l with
    | some g => some g
    | none => firstMoveInLayers rest

/-- Source `get_next_move(gcode, layer_idx, gline_idx)`: the next
`is_move` line strictly after position `gline_idx` of layer `layer_idx`. -/
def get_next_move (layers : List (List GLine)) (layer_idx gline_idx : ℕ) :
    Option GLine :=
  match layers.drop layer_idx with
  | [] => none
  | l :: rest =>
    match findIsMove (l.drop (gline_idx + 1)) with
    | some g => some g
    | none => firstMoveInLayers rest

/-- Truthiness of `next_move and next_move.extruding` in the source's
end-cap condition. -/
def nextMoveExtruding (layers : List (List GLine)) (layer_idx gline_idx : ℕ) :
    Bool :=
  match get_next_move layers layer_idx gline_idx with
  | some g => g.extruding
  | none => false

/-- Source local `delta_x` of the extruding branch (line 1023). -/
def delta_x (s : LoadState) (cp : Vec3) : ℝ := cp.x - s.prev_pos.x

/-- Source local `delta_y` of the extruding branch (line 1024). -/
def delta_y (s : LoadState) (cp : Vec3) : ℝ := cp.y - s.prev_pos.y

/-- Source local `norm` before the square root (line 1025). -/
def sq_norm (s : LoadState) (cp : Vec3) : ℝ :=
  delta_x s cp * delta_x s cp + delta_y s cp * delta_y s cp

/-- Source local `move_normal_x` (line 1029). -/
def move_normal_x (s : LoadState) (cp : Vec3) : ℝ :=
  -(delta_y s cp) / Real.sqrt (sq_norm s cp)

/-- Source local `move_normal_y` (line 1030). -/
def move_normal_y (s : LoadState) (cp : Vec3) : ℝ :=
  delta_x s cp / Real.sqrt (sq_norm s cp)

/-- Source local `move_angle` (line 1031). -/
def move_angle (s : LoadState) (cp : Vec3) : ℝ :=
  atan2 (delta_y s cp) (delta_x s cp)

/-- Source local `avg_move_normal_x` before normalization (line 1063). -/
def avg_normal_x0 (s : LoadState) (cp : Vec3) : ℝ :=
  (s.prev_move_normal_x + move_normal_x s cp) / 2

/-- Source local `avg_move_normal_y` before normalization (line 1064). -/
def avg_normal_y0 (s : LoadState) (cp : Vec3) : ℝ :=
  (s.prev_move_normal_y + move_normal_y s cp) / 2

/-- Squared length of the averaged normal (lines 1065-1066). -/
def avg_sq (s : LoadState) (cp : Vec3) : ℝ :=
  avg_normal_x0 s cp * avg_normal_x0 s cp + avg_normal_y0 s cp * avg_normal_y0 s cp

/-- Source local `delta_angle`, normalized into `[0, 2π)` (lines
1074-1075). -/
def join_delta_angle (s : LoadState) (cp : Vec3) : ℝ :=
  pymod (move_angle s cp - s.prev_move_angle + 2 * Real.pi) (2 * Real.pi)

/-- Source local `fact = abs(cos(delta_angle / 2))` (line 1076). -/
def join_fact (s : LoadState) (cp : Vec3) : ℝ :=
  |Real.cos (join_delta_angle s cp / 2)|

/-- Geometry planned for one extruding interpolation point: the new
(position, normal) vertex pairs, the raw (Python `int`) triangle indices,
and the move normal / angle registers to store. -/
structure ExtrudePlan where
  verts : List (Vec3 × Vec3)
  idxs : List ℤ
  mnx : ℝ
  mny : ℝ
  mangle : ℝ

/-- The geometry generated by the extruding branch of the point loop
(source lines 1028-1134) for one point `cp`, given the state registers.
Join logic: if the previous line (or point) was extruding, link to the
previous cross-section starting at raw index `vertex_k - 4` (which is
negative when no geometry was emitted yet); a sharp turn
(`|cos(Δ/2)| < 0.5`) inserts a double box, otherwise one averaged box;
a fresh path start emits a capped rectangle.  When the next move is not
extruding, an end cap is added. -/
def extrudePlan (hw hh : ℝ) (nextIsExtruding : Bool) (s : LoadState)
    (cp : Vec3) : ExtrudePlan :=
  let mnx := move_normal_x s cp
  let mny := move_normal_y s cp
  let mangle := move_angle s cp
  let phw := hw * 1.2
  let phh := hh * 1.2
  let start : ℤ := (s.vertex_k : ℤ)
  let body : List (Vec3 × Vec3) × List ℤ × ℤ :=
    if prevGlineExtruding s.prev_gline || s.prev_extruding then
      let prev_id := start - 4
      let ax0 := avg_normal_x0 s cp
      let ay0 := avg_normal_y0 s cp
      let n2 := avg_sq s cp
      let ax := if n2 = 0 then mnx else ax0 / Real.sqrt n2
      let ay := if n2 = 0 then mny else ay0 / Real.sqrt n2
      let fact := join_fact s cp
      if fact < 0.5 then
        (compute_vertices s.prev_move_normal_x s.prev_move_normal_y s.prev_pos 1 phw phh
           ++ compute_vertices mnx mny s.prev_pos 1 phw phh,
         triangulate_box prev_id (prev_id + 1) (prev_id + 2) (prev_id + 3)
             start (start + 1) (start + 2) (start + 3)
           ++ triangulate_box (prev_id + 4) (prev_id + 5) (prev_id + 6) (prev_id + 7)
             (start + 4) (start + 5) (start + 6) (start + 7),
         start + 4)
      else
        (compute_vertices ax ay s.prev_pos fact phw phh,
         triangulate_box prev_id (prev_id + 1) (prev_id + 2) (prev_id + 3)
           start (start + 1) (start + 2) (start + 3),
         start)
    else
      (compute_vertices mnx mny s.prev_pos 1 phw phh,
       triangulate_rectangle start (start + 1) (start + 2) (start + 3),
       start)
  if nextIsExtruding then ⟨body.1, body.2.1, mnx, mny, mangle⟩
  else
    let verts2 := body.1 ++ compute_vertices mnx mny cp 1 phw phh
    let efirst : ℤ := start + verts2.length - 4
    ⟨verts2,
     body.2.1
       ++ triangulate_rectangle (efirst + 3) (efirst + 2) (efirst + 1) efirst
       ++ triangulate_box body.2.2 (body.2.2 + 1) (body.2.2 + 2) (body.2.2 + 3)
         efirst (efirst + 1) (efirst + 2) (efirst + 3),
     mnx, mny, mangle⟩

/-- Extruding branch of the interpolation point loop: a point with zero
projected XY displacement is skipped entirely (the `continue` also skips
the `prev_pos` update); otherwise the planned geometry is appended and
every register updated (source lines 1022-1170). -/
def processExtrudingPoint (hw hh : ℝ) (nextIsExtruding : Bool) (gline : GLine)
    (cp : Vec3) (s : LoadState) : LoadState :=
  if sq_norm s cp = 0 then s
  else
    let plan := extrudePlan hw hh nextIsExtruding s cp
    { s with
      indices := s.indices ++ plan.idxs.map storeGLuint,
      index_k := s.index_k + plan.idxs.length,
      vertices := s.vertices ++ vertexChunk (movement_color gline) plan.verts,
      vertex_k := s.vertex_k + plan.verts.length,
      prev_move_normal_x := plan.mnx,
      prev_move_normal_y := plan.mny,
      prev_move_angle := plan.mangle,
      prev_pos := cp,
      prev_extruding := gline.extruding }

/-- One iteration of the interpolation point loop (source lines
1005-1170): non-extruding lines append a 2-vertex travel segment
unconditionally; extruding lines go through the tessellation branch. -/
def processPoint (hw hh : ℝ) (nextExtr : Bool) (gline : GLine)
    (pt : Vec3 × Bool) (s : LoadState) : LoadState :=
  if gline.extruding then
    processExtrudingPoint hw hh (pt.2 || nextExtr) gline pt.1 s
  else
    { s with
      travels := s.travels ++ travelChunk s.prev_pos pt.1,
      travel_vertex_k := s.travel_vertex_k + 2,
      prev_pos := pt.1,
      prev_extruding := gline.extruding }

/-- The source's skip of motion lines with no coordinate words at all
(lines 1000-1003: `x`, `y`, `z`, `j`, `i` all `None`). -/
def allCoordsNone (g : GLine) : Bool :=
  g.x.isNone && g.y.isNone && g.z.isNone && g.j.isNone && g.i.isNone

/-- Processing of one G-code line of a layer (source lines 997-1177):
non-moves and all-`None` moves are skipped (no counters, no buffers);
a movement line runs the interpolation loop and then appends the current
cursors to the three running-count sequences and becomes `prev_gline`. -/
def processGline (hw hh : ℝ) (layers : List (List GLine))
    (layer_idx gline_idx : ℕ) (gline : GLine) (s : LoadState) : LoadState :=
  if gline.is_move = false then s
  else if allCoordsNone gline then s
  else
    let nextExtr := nextMoveExtruding layers layer_idx gline_idx
    let s1 := (interpolate_arcs gline s.prev_gline).foldl
      (fun t pt => processPoint hw hh nextExtr gline pt t) s
    { s1 with
      prev_gline := some gline,
      prev_extruding := gline.extruding,
      count_print_indices := s1.count_print_indices ++ [s1.index_k],
      count_print_vertices := s1.count_print_vertices ++ [s1.vertex_k],
      count_travel_indices := s1.count_travel_indices ++ [s1.travel_vertex_k] }

/-- The source's `has_movement` flag: some line of the layer passes both
skip filters. -/
def layerHasMovement (layer : List GLine) : Bool :=
  layer.any fun g => g.is_move && !(allCoordsNone g)

/-- Processing of one layer (source lines 982-1193): every line in order,
then, if the layer had movement, a new `layer_stops` entry (the current
length of the running-count sequences minus one) and the layer
bookkeeping updates. -/
def processLayer (hw hh : ℝ) (layers : List (List GLine)) (layer_idx : ℕ)
    (s : LoadState) : LoadState :=
  let layer := layers.getD layer_idx []
  let s1 := layer.enum.foldl
    (fun t p => processGline hw hh layers layer_idx p.1 p.2 t) s
  if layerHasMovement layer then
    let stops2 := s1.layer_stops ++ [s1.count_print_indices.length - 1]
    { s1 with
      layer_stops := stops2,
      layer_idxs_map := s1.layer_idxs_map ++ [(layer_idx, stops2.length - 1)],
      max_layers := stops2.length - 1,
      num_layers_to_draw := stops2.length - 1 + 1,
      loaded := true }
  else s1

/-- The state at entry of `load_data` (source lines 918-980 plus the
`Model.__init__` defaults): empty buffers, running counts `[0]`,
`layer_stops = [0]`, origin position, no previous line. -/
def initState : LoadState :=
  { vertices := [], travels := [], indices := [],
    vertex_k := 0, travel_vertex_k := 0, index_k := 0,
    layer_stops := [0],
    count_print_indices := [0], count_print_vertices := [0],
    count_travel_indices := [0],
    layer_idxs_map := [],
    prev_move_normal_x := 0, prev_move_normal_y := 0, prev_move_angle := 0,
    prev_pos := ⟨0, 0, 0⟩, prev_gline := none, prev_extruding := false,
    max_layers := 0, num_layers_to_draw := 0,
    printed_until := 0, only_current := false,
    loaded := false, fully_loaded := false }

/-- Construction-time settings of a fresh `GcodeModel` instance that
`load_data` can see; only the path cross-section sizes are read by the
tessellation. -/
structure GcodeModelInit where
  path_halfwidth : ℝ := 0.2
  path_halfheight : ℝ := 0.2
  offset_x : ℝ := 0
  offset_y : ℝ := 0
  display_travels : Bool := true

/-- The state after the per-layer loop has processed the first `k`
layers (the generator's k-th yield point). -/
def load_data_upto (cfg : GcodeModelInit) (layers : List (List GLine))
    (k : ℕ) : LoadState :=
  (List.range k).foldl
    (fun s i => processLayer cfg.path_halfwidth cfg.path_halfheight layers i s)
    initState

/-- Source `GcodeModel.load_data` run to completion: all layers, then the
final bookkeeping under the lock (lines 1195-1213; the buffer trim is a
no-op in the list model, which only ever holds the written values). -/
def load_data (cfg : GcodeModelInit) (layers : List (List GLine)) : LoadState :=
  let s := load_data_upto cfg layers layers.length
  { s with
    max_layers := s.layer_stops.length - 1,
    num_layers_to_draw := s.layer_stops.length - 1 + 1,
    loaded := true,
    fully_loaded := true }

/-- The fields of a model that the draw-range computation reads, with the
two externally settable cursors; `layers_loaded` is set to `max_layers`
by `GcodeModel.load` (line 1265). -/
structure DrawnState where
  layers_loaded : ℕ
  num_layers_to_draw : ℕ
  printed_until : ℕ
  only_current : Bool
  layer_stops : List ℕ
  count_travel_indices : List ℕ
  count_print_indices : List ℕ
  count_print_vertices : List ℕ

/-- The draw-range state of a loaded model with cursors `p` (printed
until) and `n` (layers to draw). -/
def mkDrawn (s : LoadState) (p n : ℕ) : DrawnState :=
  { layers_loaded := s.max_layers,
    num_layers_to_draw := n,
    printed_until := p,
    only_current := s.only_current,
    layer_stops := s.layer_stops,
    count_travel_indices := s.count_travel_indices,
    count_print_indices := s.count_print_indices,
    count_print_vertices := s.count_print_vertices }

/-- Python list indexing with a possibly negative index: negative indices
address from the end; out of range raises (`none`). -/
def pyGet (l : List ℕ) (i : ℤ) : Option ℕ :=
  if 0 ≤ i then l.get? i.toNat
  else if (-i).toNat ≤ l.length then l.get? (l.length - (-i).toNat)
  else none

/-- Source `GcodeModel._draw_elements(start, end)` (lines 1330-1339):
`none` models an `IndexError`; an empty-range call draws nothing; else
one `glDrawRangeElements` call, recorded as (first vertex, last vertex,
index count).  All call sites pass `start ≥ 1`. -/
def draw_elements (m : DrawnState) (start endl : ℕ) :
    Option (List (ℤ × ℤ × ℤ)) := do
  let ie ← m.count_print_indices.get? endl
  let ib ← m.count_print_indices.get? (start - 1)
  if ie = ib then
    pure []
  else
    let vb ← m.count_print_vertices.get? (start - 1)
    let ve ← m.count_print_vertices.get? endl
    pure [((vb : ℤ), (ve : ℤ) - 1, (ie : ℤ) - (ib : ℤ))]

/-- Source `GcodeModel._display_movements` (lines 1341-1392): the list of
element-range draw calls issued, `none` modelling an `IndexError` on any
buffer access. -/
def display_movements (m : DrawnState) : Option (List (ℤ × ℤ × ℤ)) := do
  let maxl := m.layers_loaded
  let ls : Bool := decide (m.num_layers_to_draw ≤ maxl)
  let epl ←
    if ls then pyGet m.layer_stops ((m.num_layers_to_draw : ℤ) - 1)
    else pure 0
  let endl ← m.layer_stops.get? (min m.num_layers_to_draw maxl)
  let cur_end := min m.printed_until endl
  let d1 ←
    if m.only_current = false then
      if 1 ≤ epl ∧ epl ≤ cur_end then draw_elements m 1 epl
      else if 1 ≤ cur_end then draw_elements m 1 cur_end
      else pure []
    else pure []
  let start1 := max cur_end 1
  let d2p ←
    if start1 ≤ epl then do
      let d ← if m.only_current = false then draw_elements m start1 epl else pure []
      pure (d, epl)
    else pure (([] : List (ℤ × ℤ × ℤ)), cur_end)
  let d3 ←
    if ls then do
      let a ← if epl < d2p.2 then draw_elements m (epl + 1) d2p.2 else pure []
      let b ← if d2p.2 < endl then draw_elements m (d2p.2 + 1) endl else pure []
      pure (a ++ b)
    else pure []
  let start2 := max m.printed_until 1
  let d4 ←
    if ls = false ∧ start2 ≤ endl then draw_elements m start2 endl
    else pure []
  pure (d1 ++ d2p.1 ++ d3 ++ d4)

/-- Source `GcodeModel._display_travels` (lines 1304-1328): the list of
array draw calls issued as (start, count) pairs, `none` modelling an
`IndexError` on any buffer access. -/
def display_travels (m : DrawnState) : Option (List (ℤ × ℤ)) := do
  let maxl := m.layers_loaded
  let endl ← m.layer_stops.get? (min m.num_layers_to_draw maxl)
  let ei ← m.count_travel_indices.get? endl
  let part ←
    if m.num_layers_to_draw < maxl then do
      let epl ← pyGet m.layer_stops ((m.num_layers_to_draw : ℤ) - 1)
      let si ← m.count_travel_indices.get? (epl + 1)
      pure ([((si : ℤ), (ei : ℤ) - (si : ℤ) + 1)], si)
    else pure (([] : List (ℤ × ℤ)), ei)
  if m.only_current = false then
    pure (part.1 ++ [(0, (part.2 : ℤ) - 1)])
  else pure part.1

/-- A fresh model's settings with the default path cross-section. -/
def cfg0 : GcodeModelInit := {}

/-- Concrete scenario 1, layer 0: linear extruding move to `(10, 0, 0)`. -/
def glineE1 : GLine :=
  { x := some 10, extruding := true, current_x := 10 }

/-- Concrete scenario 1, layer 1: linear extruding move to `(10, 10, 0.2)`. -/
def glineE2 : GLine :=
  { y := some 10, z := some 0.2, extruding := true,
    current_x := 10, current_y := 10, current_z := 0.2 }

/-- Concrete scenario 1: two layers of one extruding move each. -/
def scenario1 : List (List GLine) := [[glineE1], [glineE2]]

/-- A pure Z/E extruding move (no XY displacement), target `(0, 0, 0.2)`. -/
def glineZE : GLine :=
  { z := some 0.2, extruding := true, current_z := 0.2 }

/-- An extruding move to `(10, 0, 0.2)` following the pure Z/E move. -/
def glineX10 : GLine :=
  { x := some 10, extruding := true, current_x := 10, current_z := 0.2 }

/-- The index-underflow program: a pure Z/E extruding move followed by the
first geometry-producing extruding move, in one layer. -/
def scenario4 : List (List GLine) := [[glineZE, glineX10]]

/-- A linear travel (non-extruding) move to `(10, 0, 0)`. -/
def glineTravel : GLine := { x := some 10, current_x := 10 }

/-- A pure-Z travel move (zero XY displacement), target `(0, 0, 5)`. -/
def glineZTravel : GLine := { z := some 5, current_z := 5 }

/-- Resolved end point of scenario 1's first move. -/
def cpA : Vec3 := ⟨10, 0, 0⟩

/-- Resolved end point of scenario 1's second move. -/
def cpB : Vec3 := ⟨10, 10, 0.2⟩

/-- Resolved end point of the second move of the index-underflow
program. -/
def cp4 : Vec3 := ⟨10, 0, 0.2⟩

/-- State after the pure Z/E extruding move of the index-underflow
program: no geometry was emitted (zero XY displacement skip), but the
line became `prev_gline` with `extruding = True` and the running counts
were appended. -/
def scenario4_mid : LoadState :=
  { initState with
    prev_gline := some glineZE,
    prev_extruding := true,
    count_print_indices := [0, 0],
    count_print_vertices := [0, 0],
    count_travel_indices := [0, 0] }

/-- State after the first move of scenario 1: one capped-rectangle
cross-section (4 vertices, 6 indices), no end cap because the next move
extrudes. -/
def scenario1_midA : LoadState :=
  { initState with
    vertices := vertexChunk (movement_color glineE1)
      (extrudePlan 0.2 0.2 true initState cpA).verts,
    indices := (extrudePlan 0.2 0.2 true initState cpA).idxs.map storeGLuint,
    vertex_k := 4,
    index_k := 6,
    count_print_indices := [0, 6],
    count_print_vertices := [0, 4],
    count_travel_indices := [0, 0],
    prev_move_normal_x := (extrudePlan 0.2 0.2 true initState cpA).mnx,
    prev_move_normal_y := (extrudePlan 0.2 0.2 true initState cpA).mny,
    prev_move_angle := (extrudePlan 0.2 0.2 true initState cpA).mangle,
    prev_pos := cpA,
    prev_gline := some glineE1,
    prev_extruding := true }

/-- State after layer 0 of scenario 1 completed: the first
`layer_stops` entry was appended. -/
def scenario1_L0 : LoadState :=
  { scenario1_midA with
    layer_stops := [0, 1],
    layer_idxs_map := [(0, 1)],
    max_layers := 1,
    num_layers_to_draw := 2,
    loaded := true }

/-- How one step of the point loop may change the state: the write
cursors only grow, and the running-count sequences, layer bookkeeping and
`only_current` are untouched (they change only at line / layer ends). -/
def StepOk (s t : LoadState) : Prop :=
  s.index_k ≤ t.index_k ∧ s.vertex_k ≤ t.vertex_k ∧
  s.travel_vertex_k ≤ t.travel_vertex_k ∧
  t.count_print_indices = s.count_print_indices ∧
  t.count_print_vertices = s.count_print_vertices ∧
  t.count_travel_indices = s.count_travel_indices ∧
  t.layer_stops = s.layer_stops ∧
  t.max_layers = s.max_layers ∧
  t.only_current = s.only_current

/-- The loader invariant: the running-count sequences are non-empty,
equally long, non-decreasing and bounded by the write cursors;
`layer_stops` starts at 0, is non-decreasing, indexes into the count
sequences, and has length `max_layers + 1`; `only_current` stays off. -/
structure LoadInv (s : LoadState) : Prop where
  cpiNe : s.count_print_indices ≠ []
  lenPV : s.count_print_vertices.length = s.count_print_indices.length
  lenTI : s.count_travel_indices.length = s.count_print_indices.length
  stopsNe : s.layer_stops ≠ []
  stopsHead : s.layer_stops.head? = some 0
  stopsLt : ∀ x ∈ s.layer_stops, x < s.count_print_indices.length
  stopsLen : s.layer_stops.length = s.max_layers + 1
  stopsMono : s.layer_stops.Chain' (· ≤ ·)
  cpiMono : s.count_print_indices.Chain' (· ≤ ·)
  cpvMono : s.count_print_vertices.Chain' (· ≤ ·)
  ctiMono : s.count_travel_indices.Chain' (· ≤ ·)
  cpiLast : ∀ v, s.count_print_indices.getLast? = some v → v ≤ s.index_k
  cpvLast : ∀ v, s.count_print_vertices.getLast? = some v → v ≤ s.vertex_k
  ctiLast : ∀ v, s.count_travel_indices.getLast? = some v → v ≤ s.travel_vertex_k
  ocF : s.only_current = false

end

theorem arc_mids_all_true {g prev : GLine} {dir : ArcDir} :
    ∀ q ∈ arc_mids g prev dir, q.2 = true := by
  intro q hq
  simp only [arc_mids, List.mem_map] at hq
  obtain ⟨t, _, rfl⟩ := hq
  rfl

theorem interpolate_arcs_split (g : GLine) (p : Option GLine) :
    ∃ mids, interpolate_arcs g p =
        mids ++ [(⟨g.current_x, g.current_y, g.current_z⟩, false)] ∧
      ∀ q ∈ mids, q.2 = true := by
  cases hc : g.command with
  | none => exact ⟨[], by simp [interpolate_arcs, hc], by simp⟩
  | some dir =>
      exact ⟨arc_mids g (p.getD default) dir, by simp [interpolate_arcs, hc],
        arc_mids_all_true⟩

/-- C1: for every motion command the last yielded pair of the arc
interpolator is the command's resolved target with flag `false`; this
flag-`false` pair is yielded exactly once and always last (every earlier
pair has flag `true`); and for a non-arc command it is the only pair. -/
theorem arc_interpolator_final_point (g : GLine) (p : Option GLine) :
    (interpolate_arcs g p).getLast? =
        some (⟨g.current_x, g.current_y, g.current_z⟩, false) ∧
      (interpolate_arcs g p).countP (fun q => !q.2) = 1 ∧
      (∀ q ∈ (interpolate_arcs g p).dropLast, q.2 = true) ∧
      (g.command = none →
        interpolate_arcs g p =
          [(⟨g.current_x, g.current_y, g.current_z⟩, false)]) := by
  obtain ⟨mids, hsplit, htrue⟩ := interpolate_arcs_split g p
  refine ⟨?_, ?_, ?_, ?_⟩
  · rw [hsplit]
    simp
  · rw [hsplit, List.countP_append]
    have hz : mids.countP (fun q => !q.2) = 0 := by
      rw [List.countP_eq_zero]
      intro q hq
      simp [htrue q hq]
    simp [hz]
  · rw [hsplit, List.dropLast_concat]
    exact htrue
  · intro hc
    simp [interpolate_arcs, hc]

/-- C1 witness: on a concrete linear move the interpolator yields exactly
the resolved target, once, with flag `false`. -/
theorem arc_interpolator_final_point_witness :
    (interpolate_arcs { current_x := 3, current_y := 4, current_z := 5 } none).getLast? =
        some (⟨3, 4, 5⟩, false) ∧
      interpolate_arcs { current_x := 3, current_y := 4, current_z := 5 } none =
        [(⟨(3 : ℝ), 4, 5⟩, false)] :=
  ⟨(arc_interpolator_final_point { current_x := 3, current_y := 4, current_z := 5 } none).1,
   (arc_interpolator_final_point { current_x := 3, current_y := 4, current_z := 5 } none).2.2.2 rfl⟩

theorem countP_true_interpolate (g prev : GLine) (dir : ArcDir)
    (hc : g.command = some dir) :
    (interpolate_arcs g (some prev)).countP (fun q => q.2) =
      arc_segments g prev dir := by
  simp only [interpolate_arcs, hc, Option.getD_some, List.countP_append]
  have hmids : (arc_mids g prev dir).countP (fun q => q.2) =
      (arc_mids g prev dir).length := by
    rw [List.countP_eq_length]
    intro q hq
    simp [arc_mids_all_true q hq]
  have hlen : (arc_mids g prev dir).length = arc_segments g prev dir := by
    simp only [arc_mids, List.length_map, List.length_range]
  rw [hmids, hlen]
  simp

theorem atan2_neg_five : atan2 (-(0 : ℝ)) (-(5 : ℝ)) = Real.pi := by
  refine Complex.arg_eq_pi_iff.mpr ⟨?_, ?_⟩
  · show (-(5 : ℝ)) < 0
    norm_num
  · show (-(0 : ℝ)) = 0
    norm_num

theorem atan2_pos_five : atan2 (0 : ℝ) (5 : ℝ) = 0 := by
  refine Complex.arg_eq_zero_iff.mpr ⟨?_, ?_⟩
  · show (0 : ℝ) ≤ 5
    norm_num
  · show (0 : ℝ) = 0
    rfl

theorem arc_sweep_demo : arc_sweep g2demo prev0 ArcDir.cw = -Real.pi := by
  have h1 := atan2_neg_five
  have h2 : atan2 (0 - (0 + 0) : ℝ) (10 - (0 + 5) : ℝ) = 0 := by
    rw [show (0 - (0 + 0) : ℝ) = 0 by norm_num,
      show (10 - (0 + 5) : ℝ) = 5 by norm_num]
    exact atan2_pos_five
  simp only [arc_sweep, g2demo, prev0, Option.getD_some, Option.getD_none]
  rw [h1, h2]
  rw [if_neg (by simp; exact Real.pi_pos : ¬ (0 : ℝ) ≤ 0 - Real.pi)]
  ring

theorem arc_radius_demo : arc_radius g2demo = 5 := by
  simp only [arc_radius, g2demo, Option.getD_some, Option.getD_none]
  rw [show (5 * 5 + 0 * 0 : ℝ) = 25 by norm_num]
  rw [show (25 : ℝ) = 5 ^ 2 by norm_num]
  exact Real.sqrt_sq (by norm_num)

theorem demo_ceil : ⌈|arc_sweep g2demo prev0 ArcDir.cw| * arc_radius g2demo * 2 / 0.5⌉₊ = 63 := by
  rw [arc_sweep_demo, arc_radius_demo, abs_neg, abs_of_pos Real.pi_pos]
  have hval : Real.pi * 5 * 2 / 0.5 = 20 * Real.pi := by
    rw [show (0.5 : ℝ) = 1 / 2 by norm_num]
    field_simp
    ring
  rw [hval]
  refine (Nat.ceil_eq_iff (by norm_num)).mpr ⟨?_, ?_⟩
  · push_cast
    nlinarith [Real.pi_gt_d2]
  · push_cast
    nlinarith [Real.pi_lt_d2]

theorem arc_segments_mono_aux {x y : ℝ} (h : x ≤ y) :
    min ⌈x * 2 / 0.5⌉₊ 100 ≤ min ⌈y * 2 / 0.5⌉₊ 100 := by
  have h05 : (0 : ℝ) < 0.5 := by norm_num
  have h2 : x * 2 / 0.5 ≤ y * 2 / 0.5 :=
    (div_le_div_iff_of_pos_right h05).mpr (by linarith)
  exact min_le_min (Nat.ceil_mono h2) le_rfl

/-- C2: for every arc command the number of points yielded with flag
`true` equals `min(100, ceil(|sweep| * radius * 2 / 0.5))`; the demo arc
`G2 I5 J0` from the origin to `(10, 0, 0)` yields exactly 63 interpolated
points with sweep `-π` (magnitude `π`); the count is always at most 100;
and it is monotonically non-decreasing in `radius * |sweep|`. -/
theorem arc_segment_count (g prev : GLine) (dir : ArcDir)
    (hc : g.command = some dir) :
    (interpolate_arcs g (some prev)).countP (fun q => q.2) =
        min 100 ⌈|arc_sweep g prev dir| * arc_radius g * 2 / 0.5⌉₊ ∧
      (interpolate_arcs g (some prev)).countP (fun q => q.2) ≤ 100 ∧
      (interpolate_arcs g2demo (some prev0)).countP (fun q => q.2) = 63 ∧
      arc_sweep g2demo prev0 ArcDir.cw = -Real.pi ∧
      (∀ g2 prev2 dir2, g2.command = some dir2 →
        |arc_sweep g prev dir| * arc_radius g ≤
          |arc_sweep g2 prev2 dir2| * arc_radius g2 →
        (interpolate_arcs g (some prev)).countP (fun q => q.2) ≤
          (interpolate_arcs g2 (some prev2)).countP (fun q => q.2)) := by
  have hdemo : (interpolate_arcs g2demo (some prev0)).countP (fun q => q.2) = 63 := by
    rw [countP_true_interpolate g2demo prev0 ArcDir.cw rfl, arc_segments,
      demo_ceil]
    rfl
  refine ⟨?_, ?_, hdemo, arc_sweep_demo, ?_⟩
  · rw [countP_true_interpolate g prev dir hc, arc_segments, min_comm]
  · rw [countP_true_interpolate g prev dir hc, arc_segments]
    exact min_le_right _ _
  · intro g2 prev2 dir2 hc2 hle
    rw [countP_true_interpolate g prev dir hc,
      countP_true_interpolate g2 prev2 dir2 hc2, arc_segments, arc_segments]
    exact arc_segments_mono_aux hle

/-- C2 witness: the demo arc yields exactly 63 interpolated points. -/
theorem arc_segment_count_witness :
    (interpolate_arcs g2demo (some prev0)).countP (fun q => q.2) = 63 :=
  (arc_segment_count g2demo prev0 ArcDir.cw rfl).2.2.1

/-- C9: re-targeting the look-at point onto the ground plane returns the
target unchanged when the view ray is parallel to the plane or meets it
behind the eye, and otherwise returns `eye + t * direction`, a point of
the plane `z = 0`. -/
theorem set_target_to_ground_spec (target eye udir : Vec3) :
    (dot3 udir plane_normal = 0 →
        set_target_to_ground target eye udir = target) ∧
      (dot3 udir plane_normal ≠ 0 →
        -(dot3 eye plane_normal) / dot3 udir plane_normal < 0 →
        set_target_to_ground target eye udir = target) ∧
      (dot3 udir plane_normal ≠ 0 →
        ¬ -(dot3 eye plane_normal) / dot3 udir plane_normal < 0 →
        set_target_to_ground target eye udir =
            vadd eye
              (smul3 (-(dot3 eye plane_normal) / dot3 udir plane_normal) udir) ∧
          (set_target_to_ground target eye udir).z = 0) := by
  refine ⟨?_, ?_, ?_⟩
  · intro hq
    simp [set_target_to_ground, hq]
  · intro hq ht
    simp [set_target_to_ground, hq, ht]
  · intro hq ht
    have hres : set_target_to_ground target eye udir =
        vadd eye
          (smul3 (-(dot3 eye plane_normal) / dot3 udir plane_normal) udir) := by
      simp [set_target_to_ground, hq, ht]
    refine ⟨hres, ?_⟩
    rw [hres]
    have hqz : dot3 udir plane_normal = udir.z := by
      simp [dot3, plane_normal]
    have hez : dot3 eye plane_normal = eye.z := by
      simp [dot3, plane_normal]
    have hz : udir.z ≠ 0 := by
      rw [hqz] at hq
      exact hq
    show eye.z + -(dot3 eye plane_normal) / dot3 udir plane_normal * udir.z = 0
    rw [hqz, hez]
    field_simp

/-- C9 witness: from eye `(0,0,2)` looking straight down, the ray hits the
ground plane and the returned target has `z = 0`. -/
theorem set_target_to_ground_witness :
    (set_target_to_ground ⟨5, 5, 5⟩ ⟨0, 0, 2⟩ ⟨0, 0, -1⟩).z = 0 :=
  ((set_target_to_ground_spec ⟨5, 5, 5⟩ ⟨0, 0, 2⟩ ⟨0, 0, -1⟩).2.2
    (by norm_num [dot3, plane_normal])
    (by norm_num [dot3, plane_normal])).2

theorem travelChunk_length (pp cp : Vec3) : (travelChunk pp cp).length = 20 := by
  simp [travelChunk, travel_attributes, color_travel]

theorem processPoint_travel (hw hh : ℝ) (nE : Bool) (g : GLine)
    (pt : Vec3 × Bool) (s : LoadState) (hext : g.extruding = false) :
    processPoint hw hh nE g pt s =
      { s with
        travels := s.travels ++ travelChunk s.prev_pos pt.1,
        travel_vertex_k := s.travel_vertex_k + 2,
        prev_pos := pt.1,
        prev_extruding := g.extruding } := by
  simp [processPoint, hext]

/-- C7: a non-extruding move appends, per interpolation point, exactly 2
vertices (20 floats) to the travel buffer and nothing to the print vertex
or index buffers, and no print cursor advances; a linear travel line
therefore appends exactly 2 travel vertices in total. -/
theorem travel_move_buffers (hw hh : ℝ) (nE : Bool) (g : GLine)
    (pt : Vec3 × Bool) (s : LoadState)
    (hext : g.extruding = false) (hdist : pt.1 ≠ s.prev_pos) :
    (processPoint hw hh nE g pt s).travel_vertex_k = s.travel_vertex_k + 2 ∧
      (processPoint hw hh nE g pt s).travels.length = s.travels.length + 20 ∧
      (processPoint hw hh nE g pt s).vertices = s.vertices ∧
      (processPoint hw hh nE g pt s).indices = s.indices ∧
      (processPoint hw hh nE g pt s).vertex_k = s.vertex_k ∧
      (processPoint hw hh nE g pt s).index_k = s.index_k ∧
      (∀ layers li gi, g.is_move = true → allCoordsNone g = false →
        g.command = none →
        (processGline hw hh layers li gi g s).travel_vertex_k =
            s.travel_vertex_k + 2 ∧
          (processGline hw hh layers li gi g s).vertex_k = s.vertex_k ∧
          (processGline hw hh layers li gi g s).index_k = s.index_k) := by
  rw [processPoint_travel hw hh nE g pt s hext]
  refine ⟨rfl, by simp [travelChunk_length], rfl, rfl, rfl, rfl, ?_⟩
  intro layers li gi hmv hcn hc
  rw [processGline, if_neg (by simp [hmv]), if_neg (by simp [hcn])]
  simp only [interpolate_arcs, hc, List.nil_append, List.foldl_cons,
    List.foldl_nil]
  rw [processPoint_travel hw hh _ g _ s hext]
  exact ⟨rfl, rfl, rfl⟩

/-- C7 witness: a concrete linear travel move from the origin to
`(10, 0, 0)` on a fresh state appends exactly 2 travel vertices and
leaves the print buffers at zero. -/
theorem travel_move_buffers_witness :
    (⟨(10 : ℝ), 0, 0⟩, false).1 ≠ initState.prev_pos ∧
      (processGline 0.2 0.2 [[glineTravel]] 0 0 glineTravel initState).travel_vertex_k =
          initState.travel_vertex_k + 2 ∧
        (processGline 0.2 0.2 [[glineTravel]] 0 0 glineTravel initState).vertex_k =
          initState.vertex_k := by
  have hd : (⟨(10 : ℝ), 0, 0⟩, false).1 ≠ initState.prev_pos := by
    simp only [initState]
    intro h
    have := congrArg Vec3.x h
    norm_num at this
  refine ⟨hd, ?_, ?_⟩
  · exact ((travel_move_buffers 0.2 0.2 false glineTravel (⟨10, 0, 0⟩, false)
      initState rfl hd).2.2.2.2.2.2 [[glineTravel]] 0 0 rfl rfl rfl).1
  · exact ((travel_move_buffers 0.2 0.2 false glineTravel (⟨10, 0, 0⟩, false)
      initState rfl hd).2.2.2.2.2.2 [[glineTravel]] 0 0 rfl rfl rfl).2.1

/-- C10: the zero-XY-displacement skip belongs to the extruding branch
only: a non-extruding point still appends exactly 2 travel vertices even
with zero XY displacement, while an extruding point with zero XY
displacement leaves the state entirely unchanged. -/
theorem travel_zero_displacement (hw hh : ℝ) (nE : Bool) (g : GLine)
    (pt : Vec3 × Bool) (s : LoadState) (hext : g.extruding = false)
    (hx : pt.1.x = s.prev_pos.x) (hy : pt.1.y = s.prev_pos.y) :
    (processPoint hw hh nE g pt s).travel_vertex_k = s.travel_vertex_k + 2 ∧
      (processPoint hw hh nE g pt s).travels.length = s.travels.length + 20 ∧
      (processPoint hw hh nE g pt s).vertex_k = s.vertex_k ∧
      (processPoint hw hh nE g pt s).index_k = s.index_k ∧
      (∀ (g2 : GLine) (cp : Vec3) (nE2 : Bool) (s2 : LoadState),
        g2.extruding = true → cp.x = s2.prev_pos.x → cp.y = s2.prev_pos.y →
        processExtrudingPoint hw hh nE2 g2 cp s2 = s2) := by
  rw [processPoint_travel hw hh nE g pt s hext]
  refine ⟨rfl, by simp [travelChunk_length], rfl, rfl, ?_⟩
  intro g2 cp nE2 s2 _ hx2 hy2
  rw [processExtrudingPoint, if_pos]
  simp [sq_norm, delta_x, delta_y, hx2, hy2]

/-- C10 witness: a concrete pure-Z travel move still appends exactly 2
travel vertices. -/
theorem travel_zero_displacement_witness :
    (processPoint 0.2 0.2 false glineZTravel (⟨0, 0, 5⟩, false) initState).travel_vertex_k =
      initState.travel_vertex_k + 2 :=
  (travel_zero_displacement 0.2 0.2 false glineZTravel (⟨0, 0, 5⟩, false)
    initState rfl rfl rfl).1

/-- C8: `load_data` is deterministic: two model instances with the same
path cross-section settings produce identical finished states (buffers,
layer stops and running counts included) from the same program. -/
theorem load_data_deterministic (c1 c2 : GcodeModelInit)
    (layers : List (List GLine))
    (hwid : c1.path_halfwidth = c2.path_halfwidth)
    (hhei : c1.path_halfheight = c2.path_halfheight) :
    load_data c1 layers = load_data c2 layers := by
  cases c1
  cases c2
  dsimp only at hwid hhei
  subst hwid
  subst hhei
  rfl

/-- C8 witness: two freshly constructed instances differing in a field
the loader does not read produce the same state on a concrete program. -/
theorem load_data_deterministic_witness :
    load_data cfg0 [[glineTravel]] =
      load_data { display_travels := false } [[glineTravel]] :=
  load_data_deterministic cfg0 { display_travels := false } [[glineTravel]]
    rfl rfl

theorem stepOk_refl (s : LoadState) : StepOk s s :=
  ⟨le_rfl, le_rfl, le_rfl, rfl, rfl, rfl, rfl, rfl, rfl⟩

theorem stepOk_trans {a b c : LoadState} (h1 : StepOk a b) (h2 : StepOk b c) :
    StepOk a c :=
  ⟨le_trans h1.1 h2.1, le_trans h1.2.1 h2.2.1, le_trans h1.2.2.1 h2.2.2.1,
   h2.2.2.2.1.trans h1.2.2.2.1, h2.2.2.2.2.1.trans h1.2.2.2.2.1,
   h2.2.2.2.2.2.1.trans h1.2.2.2.2.2.1, h2.2.2.2.2.2.2.1.trans h1.2.2.2.2.2.2.1,
   h2.2.2.2.2.2.2.2.1.trans h1.2.2.2.2.2.2.2.1,
   h2.2.2.2.2.2.2.2.2.trans h1.2.2.2.2.2.2.2.2⟩

theorem processExtrudingPoint_stepOk (hw hh : ℝ) (nE : Bool) (g : GLine)
    (cp : Vec3) (s : LoadState) :
    StepOk s (processExtrudingPoint hw hh nE g cp s) := by
  rw [processExtrudingPoint]
  split
  · exact stepOk_refl s
  · exact ⟨Nat.le_add_right _ _, Nat.le_add_right _ _, le_rfl, rfl, rfl, rfl,
      rfl, rfl, rfl⟩

theorem processPoint_stepOk (hw hh : ℝ) (nE : Bool) (g : GLine)
    (pt : Vec3 × Bool) (s : LoadState) :
    StepOk s (processPoint hw hh nE g pt s) := by
  cases hg : g.extruding with
  | true =>
      rw [processPoint, if_pos hg]
      exact processExtrudingPoint_stepOk hw hh (pt.2 || nE) g pt.1 s
  | false =>
      rw [processPoint_travel hw hh nE g pt s hg]
      exact ⟨le_rfl, le_rfl, Nat.le_add_right _ _, rfl, rfl, rfl, rfl, rfl, rfl⟩

theorem foldl_processPoint_stepOk (hw hh : ℝ) (nE : Bool) (g : GLine)
    (pts : List (Vec3 × Bool)) (s : LoadState) :
    StepOk s (pts.foldl (fun t pt => processPoint hw hh nE g pt t) s) := by
  induction pts generalizing s with
  | nil => exact stepOk_refl s
  | cons p rest ih =>
      simp only [List.foldl_cons]
      exact stepOk_trans (processPoint_stepOk hw hh nE g p s) (ih _)

theorem chain'_le_snoc {l : List ℕ} {a : ℕ} (hl : l.Chain' (· ≤ ·))
    (h : ∀ v, l.getLast? = some v → v ≤ a) :
    (l ++ [a]).Chain' (· ≤ ·) := by
  refine hl.append (List.chain'_singleton a) ?_
  intro x hx y hy
  simp only [List.head?_cons, Option.mem_def, Option.some.injEq] at hy
  subst hy
  exact h x hx

theorem processGline_move_eq (hw hh : ℝ) (layers : List (List GLine))
    (li gi : ℕ) (g : GLine) (s : LoadState)
    (hmv : g.is_move = true) (hcn : allCoordsNone g = false) :
    processGline hw hh layers li gi g s =
      { (interpolate_arcs g s.prev_gline).foldl
          (fun t pt => processPoint hw hh (nextMoveExtruding layers li gi) g pt t)
          s with
        prev_gline := some g,
        prev_extruding := g.extruding,
        count_print_indices :=
          ((interpolate_arcs g s.prev_gline).foldl
            (fun t pt => processPoint hw hh (nextMoveExtruding layers li gi) g pt t)
            s).count_print_indices ++
          [((interpolate_arcs g s.prev_gline).foldl
            (fun t pt => processPoint hw hh (nextMoveExtruding layers li gi) g pt t)
            s).index_k],
        count_print_vertices :=
          ((interpolate_arcs g s.prev_gline).foldl
            (fun t pt => processPoint hw hh (nextMoveExtruding layers li gi) g pt t)
            s).count_print_vertices ++
          [((interpolate_arcs g s.prev_gline).foldl
            (fun t pt => processPoint hw hh (nextMoveExtruding layers li gi) g pt t)
            s).vertex_k],
        count_travel_indices :=
          ((interpolate_arcs g s.prev_gline).foldl
            (fun t pt => processPoint hw hh (nextMoveExtruding layers li gi) g pt t)
            s).count_travel_indices ++
          [((interpolate_arcs g s.prev_gline).foldl
            (fun t pt => processPoint hw hh (nextMoveExtruding layers li gi) g pt t)
            s).travel_vertex_k] } := by
  rw [processGline, if_neg (by simp [hmv]), if_neg (by simp [hcn])]

theorem processGline_inv (hw hh : ℝ) (layers : List (List GLine))
    (li gi : ℕ) (g : GLine) (s : LoadState) (h : LoadInv s) :
    LoadInv (processGline hw hh layers li gi g s) := by
  cases hmv : g.is_move with
  | false => simpa [processGline, hmv] using h
  | true =>
      cases hcn : allCoordsNone g with
      | true => simpa [processGline, hmv, hcn] using h
      | false =>
          rw [processGline_move_eq hw hh layers li gi g s hmv hcn]
          have hso : StepOk s ((interpolate_arcs g s.prev_gline).foldl
              (fun t pt => processPoint hw hh
                (nextMoveExtruding layers li gi) g pt t) s) :=
            foldl_processPoint_stepOk _ _ _ _ _ _
          generalize hs1 : (interpolate_arcs g s.prev_gline).foldl
            (fun t pt => processPoint hw hh
              (nextMoveExtruding layers li gi) g pt t) s = s1
          rw [hs1] at hso
          obtain ⟨hik, hvk, htk, hcpi, hcpv, hcti, hstops, hmax, hoc⟩ := hso
          refine ⟨by simp [hcpi], ?_, ?_, by simp [hstops, h.stopsNe], ?_,
            ?_, ?_, ?_, ?_, ?_, ?_, ?_, ?_, ?_, ?_⟩
          · simp [hcpi, hcpv, h.lenPV]
          · simp [hcpi, hcti, h.lenTI]
          · simpa [hstops] using h.stopsHead
          · intro x hx
            simp only [hstops] at hx
            simp only [hcpi, List.length_append, List.length_singleton]
            exact lt_of_lt_of_le (h.stopsLt x hx) (Nat.le_add_right _ _)
          · simpa [hstops, hmax] using h.stopsLen
          · simpa [hstops] using h.stopsMono
          · rw [hcpi]
            exact chain'_le_snoc h.cpiMono
              (fun v hv => le_trans (h.cpiLast v hv) hik)
          · rw [hcpv]
            exact chain'_le_snoc h.cpvMono
              (fun v hv => le_trans (h.cpvLast v hv) hvk)
          · rw [hcti]
            exact chain'_le_snoc h.ctiMono
              (fun v hv => le_trans (h.ctiLast v hv) htk)
          · intro v hv
            simp only [hcpi, List.getLast?_concat, Option.some.injEq] at hv
            show v ≤ s1.index_k
            omega
          · intro v hv
            simp only [hcpv, List.getLast?_concat, Option.some.injEq] at hv
            show v ≤ s1.vertex_k
            omega
          · intro v hv
            simp only [hcti, List.getLast?_concat, Option.some.injEq] at hv
            show v ≤ s1.travel_vertex_k
            omega
          · simpa [hoc] using h.ocF

theorem foldl_processGline_inv (hw hh : ℝ) (layers : List (List GLine))
    (li : ℕ) (l : List (ℕ × GLine)) (s : LoadState) (h : LoadInv s) :
    LoadInv (l.foldl (fun t p => processGline hw hh layers li p.1 p.2 t) s) := by
  induction l generalizing s with
  | nil => exact h
  | cons p rest ih =>
      simp only [List.foldl_cons]
      exact ih _ (processGline_inv hw hh layers li p.1 p.2 s h)

theorem processLayer_inv (hw hh : ℝ) (layers : List (List GLine))
    (li : ℕ) (s : LoadState) (h : LoadInv s) :
    LoadInv (processLayer hw hh layers li s) := by
  rw [processLayer]
  have h1 : LoadInv ((layers.getD li []).enum.foldl
      (fun t p => processGline hw hh layers li p.1 p.2 t) s) :=
    foldl_processGline_inv hw hh layers li _ s h
  generalize hs1 : (layers.getD li []).enum.foldl
    (fun t p => processGline hw hh layers li p.1 p.2 t) s = s1
  rw [hs1] at h1
  cases hmov : layerHasMovement (layers.getD li []) with
  | false => simpa using h1
  | true =>
      simp only [if_pos]
      have hlenpos : 0 < s1.count_print_indices.length :=
        List.length_pos.mpr h1.cpiNe
      have hstopslast : ∀ v, s1.layer_stops.getLast? = some v →
          v ≤ s1.count_print_indices.length - 1 := by
        intro v hv
        have := h1.stopsLt v (List.mem_of_mem_getLast? hv)
        omega
      refine ⟨h1.cpiNe, h1.lenPV, h1.lenTI, by simp, ?_, ?_, ?_, ?_,
        h1.cpiMono, h1.cpvMono, h1.ctiMono, h1.cpiLast, h1.cpvLast,
        h1.ctiLast, h1.ocF⟩
      · rw [List.head?_append_of_ne_nil _ h1.stopsNe]
        exact h1.stopsHead
      · intro x hx
        rcases List.mem_append.mp hx with hx | hx
        · exact h1.stopsLt x hx
        · simp only [List.mem_singleton] at hx
          subst hx
          show s1.count_print_indices.length - 1 < s1.count_print_indices.length
          omega
      · simp only [List.length_append, List.length_singleton]
        omega
      · exact chain'_le_snoc h1.stopsMono hstopslast

theorem initState_inv : LoadInv initState := by
  refine ⟨by simp [initState], by simp [initState], by simp [initState],
    by simp [initState], by simp [initState], ?_, by simp [initState],
    by simp [initState], by simp [initState], by simp [initState],
    by simp [initState], ?_, ?_, ?_, by simp [initState]⟩
  · intro x hx
    simp only [initState, List.mem_singleton] at hx
    simp [initState, hx]
  · intro v hv
    simp only [initState, List.getLast?_singleton, Option.some.injEq] at hv
    omega
  · intro v hv
    simp only [initState, List.getLast?_singleton, Option.some.injEq] at hv
    omega
  · intro v hv
    simp only [initState, List.getLast?_singleton, Option.some.injEq] at hv
    omega

theorem load_data_upto_inv (cfg : GcodeModelInit) (layers : List (List GLine))
    (k : ℕ) : LoadInv (load_data_upto cfg layers k) := by
  induction k with
  | zero => exact initState_inv
  | succ m ih =>
      rw [load_data_upto, List.range_succ, List.foldl_append]
      simp only [List.foldl_cons, List.foldl_nil]
      exact processLayer_inv _ _ _ _ _ ih

theorem load_data_inv (cfg : GcodeModelInit) (layers : List (List GLine)) :
    LoadInv (load_data cfg layers) := by
  have h := load_data_upto_inv cfg layers layers.length
  rw [load_data]
  have hpos : 0 < (load_data_upto cfg layers layers.length).layer_stops.length :=
    List.length_pos.mpr h.stopsNe
  exact ⟨h.cpiNe, h.lenPV, h.lenTI, h.stopsNe, h.stopsHead, h.stopsLt,
    by simp only; omega, h.stopsMono, h.cpiMono, h.cpvMono, h.ctiMono,
    h.cpiLast, h.cpvLast, h.ctiLast, h.ocF⟩

theorem processGline_stops_const (hw hh : ℝ) (layers : List (List GLine))
    (li gi : ℕ) (g : GLine) (s : LoadState) :
    (processGline hw hh layers li gi g s).layer_stops = s.layer_stops ∧
      (processGline hw hh layers li gi g s).max_layers = s.max_layers := by
  cases hmv : g.is_move with
  | false => simp [processGline, hmv]
  | true =>
      cases hcn : allCoordsNone g with
      | true => simp [processGline, hmv, hcn]
      | false =>
          rw [processGline, if_neg (by simp [hmv]), if_neg (by simp [hcn])]
          have hso := foldl_processPoint_stepOk hw hh
            (nextMoveExtruding layers li gi) g (interpolate_arcs g s.prev_gline) s
          exact ⟨hso.2.2.2.2.2.2.1, hso.2.2.2.2.2.2.2.1⟩

theorem processLayer_no_movement (hw hh : ℝ) (layers : List (List GLine))
    (li : ℕ) (s : LoadState)
    (hmov : layerHasMovement (layers.getD li []) = false) :
    (processLayer hw hh layers li s).layer_stops = s.layer_stops ∧
      (processLayer hw hh layers li s).max_layers = s.max_layers := by
  rw [processLayer]
  simp only [hmov, Bool.false_eq_true, if_false]
  induction (layers.getD li []).enum generalizing s with
  | nil => exact ⟨rfl, rfl⟩
  | cons p rest ih =>
      simp only [List.foldl_cons]
      have h1 := processGline_stops_const hw hh layers li p.1 p.2 s
      obtain ⟨ha, hb⟩ := ih (processGline hw hh layers li p.1 p.2 s)
      exact ⟨ha.trans h1.1, hb.trans h1.2⟩

/-- C5: at every yield point of the loader (after any number of layers)
and after the final bookkeeping, `layer_stops` and the three running-count
sequences are non-decreasing, `layer_stops` starts at 0, and
`len(layer_stops) = max_layers + 1`; a layer with no movement command
contributes no `layer_stops` entry. -/
theorem load_monotone_invariants (cfg : GcodeModelInit)
    (layers : List (List GLine)) (k : ℕ) :
    (load_data_upto cfg layers k).layer_stops.Chain' (· ≤ ·) ∧
      (load_data_upto cfg layers k).count_print_vertices.Chain' (· ≤ ·) ∧
      (load_data_upto cfg layers k).count_print_indices.Chain' (· ≤ ·) ∧
      (load_data_upto cfg layers k).count_travel_indices.Chain' (· ≤ ·) ∧
      (load_data_upto cfg layers k).layer_stops.head? = some 0 ∧
      (load_data_upto cfg layers k).layer_stops.length =
        (load_data_upto cfg layers k).max_layers + 1 ∧
      (layerHasMovement (layers.getD k []) = false →
        (processLayer cfg.path_halfwidth cfg.path_halfheight layers k
            (load_data_upto cfg layers k)).layer_stops =
          (load_data_upto cfg layers k).layer_stops) ∧
      (load_data cfg layers).layer_stops.Chain' (· ≤ ·) ∧
      (load_data cfg layers).layer_stops.head? = some 0 ∧
      (load_data cfg layers).layer_stops.length =
        (load_data cfg layers).max_layers + 1 := by
  have h := load_data_upto_inv cfg layers k
  have hf := load_data_inv cfg layers
  exact ⟨h.stopsMono, h.cpvMono, h.cpiMono, h.ctiMono, h.stopsHead,
    h.stopsLen,
    fun hmov => (processLayer_no_movement _ _ layers k _ hmov).1,
    hf.stopsMono, hf.stopsHead, hf.stopsLen⟩

/-- C5 witness: the invariants instantiated on a concrete one-layer
program after its first (and only) layer. -/
theorem load_monotone_invariants_witness :
    (load_data_upto cfg0 [[glineTravel]] 1).layer_stops.head? = some 0 ∧
      (load_data_upto cfg0 [[glineTravel]] 1).layer_stops.length =
        (load_data_upto cfg0 [[glineTravel]] 1).max_layers + 1 :=
  ⟨(load_monotone_invariants cfg0 [[glineTravel]] 1).2.2.2.2.1,
   (load_monotone_invariants cfg0 [[glineTravel]] 1).2.2.2.2.2.1⟩

theorem draw_elements_some (m : DrawnState) (start endl : ℕ)
    (h1 : endl < m.count_print_indices.length)
    (h2 : start - 1 < m.count_print_indices.length)
    (hv : m.count_print_vertices.length = m.count_print_indices.length) :
    ∃ v, draw_elements m start endl = some v := by
  simp only [draw_elements, List.get?_eq_get h1, List.get?_eq_get h2,
    Option.bind_eq_bind', Option.some_bind]
  split
  · exact ⟨[], rfl⟩
  · rw [List.get?_eq_get (show start - 1 < m.count_print_vertices.length by omega),
      List.get?_eq_get (show endl < m.count_print_vertices.length by omega)]
    simp only [Option.bind_eq_bind', Option.some_bind]
    exact ⟨_, rfl⟩

/-- C6: after a completed load, any draw with `printed_until` past the
loaded command count and `num_layers_to_draw` past the loaded layer count
raises no index error in the movement or travel display paths — every
buffer access succeeds — and the drawing range end is the
`layer_stops` entry selected by the clamp
`min(num_layers_to_draw, layers_loaded)`. -/
theorem draw_range_clamped (cfg : GcodeModelInit) (layers : List (List GLine))
    (p n : ℕ)
    (hn : (load_data cfg layers).max_layers < n)
    (hp : (load_data cfg layers).count_print_indices.length ≤ p) :
    (display_movements (mkDrawn (load_data cfg layers) p n)).isSome = true ∧
      (display_travels (mkDrawn (load_data cfg layers) p n)).isSome = true ∧
      (mkDrawn (load_data cfg layers) p n).layer_stops.get?
          (min n (mkDrawn (load_data cfg layers) p n).layers_loaded) =
        (load_data cfg layers).layer_stops.get?
          (load_data cfg layers).max_layers := by
  have inv := load_data_inv cfg layers
  have hcpilen : 0 < (load_data cfg layers).count_print_indices.length :=
    List.length_pos.mpr inv.cpiNe
  have hstoplen : (load_data cfg layers).max_layers <
      (load_data cfg layers).layer_stops.length := by
    rw [inv.stopsLen]
    omega
  obtain ⟨e, he⟩ : ∃ e, (load_data cfg layers).layer_stops.get?
      (load_data cfg layers).max_layers = some e :=
    ⟨_, List.get?_eq_get hstoplen⟩
  have hemem : e ∈ (load_data cfg layers).layer_stops := List.get?_mem he
  have heLt : e < (load_data cfg layers).count_print_indices.length :=
    inv.stopsLt e hemem
  have heP : e < p := lt_of_lt_of_le heLt hp
  have hminn : min n (load_data cfg layers).max_layers =
      (load_data cfg layers).max_layers := min_eq_right (le_of_lt hn)
  have hminp : min p e = e := min_eq_right heP.le
  have hnle : ¬ (n ≤ (load_data cfg layers).max_layers) := by omega
  have hone : ¬ ((1 : ℕ) ≤ 0 ∧ (0 : ℕ) ≤ e) := by omega
  have hmax1 : ¬ (max e 1 ≤ 0) := by omega
  have hd4 : ¬ (max p 1 ≤ e) := by omega
  have hls : decide (n ≤ (load_data cfg layers).max_layers) = false := by
    simpa using hnle
  refine ⟨?_, ?_, ?_⟩
  · rw [display_movements]
    simp only [mkDrawn, hls, Bool.false_eq_true, if_false,
      Option.bind_eq_bind', Option.some_bind, hminn, he, hminp, inv.ocF,
      reduceIte]
    rcases Nat.eq_zero_or_pos e with he0 | he1
    · subst he0
      simp
    · have h1le : (1 : ℕ) ≤ e := he1
      obtain ⟨v, hv⟩ := draw_elements_some (mkDrawn (load_data cfg layers) p n)
        1 e (by simpa [mkDrawn] using heLt) (by simp [mkDrawn]; omega)
        (by simp [mkDrawn, inv.lenPV])
      simp only [mkDrawn] at hv
      rw [inv.ocF] at hv
      simp [h1le, hv, he1.ne', hone, hmax1, hd4, Option.bind_eq_bind',
        Option.some_bind]
  · rw [display_travels]
    have heTi : e < (load_data cfg layers).count_travel_indices.length := by
      rw [inv.lenTI]
      exact heLt
    have hti : (load_data cfg layers).count_travel_indices.get? e =
        some ((load_data cfg layers).count_travel_indices.get ⟨e, heTi⟩) :=
      List.get?_eq_get heTi
    have hntr : ¬ (n < (load_data cfg layers).max_layers) := by omega
    simp only [mkDrawn, hminn, he, Option.bind_eq_bind', Option.some_bind,
      hti, hntr, if_false, inv.ocF, reduceIte]
    simp [Option.bind_eq_bind', Option.some_bind]
  · simp only [mkDrawn, hminn, he]

/-- C6 witness: a concrete loaded model drawn with both cursors past the
loaded data raises no index error. -/
theorem draw_range_clamped_witness :
    (display_movements (mkDrawn (load_data cfg0 [[glineTravel]]) 5 7)).isSome = true ∧
      (display_travels (mkDrawn (load_data cfg0 [[glineTravel]]) 5 7)).isSome = true :=
  ⟨(draw_range_clamped cfg0 [[glineTravel]] 5 7 (by decide) (by decide)).1,
   (draw_range_clamped cfg0 [[glineTravel]] 5 7 (by decide) (by decide)).2.1⟩

theorem atan2_zero_nonneg (x : ℝ) (hx : 0 ≤ x) : atan2 0 x = 0 := by
  refine Complex.arg_eq_zero_iff.mpr ⟨hx, rfl⟩

theorem atan2_pos_y (y : ℝ) (hy : 0 < y) : atan2 y 0 = Real.pi / 2 :=
  Complex.arg_eq_pi_div_two_iff.mpr ⟨rfl, hy⟩

theorem pymod_self {x : ℝ} (hx : x ≠ 0) : pymod x x = 0 := by
  rw [pymod, div_self hx]
  norm_num

theorem pymod_add_self {x b : ℝ} (hb : 0 < b) (h0 : 0 ≤ x) (hx : x < b) :
    pymod (x + b) b = x := by
  rw [pymod]
  have hq : (x + b) / b = x / b + 1 := by field_simp
  have hfl : ⌊x / b⌋ = 0 :=
    Int.floor_eq_zero_iff.mpr ⟨div_nonneg h0 hb.le, (div_lt_one hb).mpr hx⟩
  rw [hq]
  rw [show x / b + 1 = x / b + (1 : ℤ) by norm_num]
  rw [Int.floor_add_int, hfl]
  push_cast
  ring

theorem processPoint_extr (hw hh : ℝ) (nE : Bool) (g : GLine)
    (pt : Vec3 × Bool) (s : LoadState) (hext : g.extruding = true) :
    processPoint hw hh nE g pt s =
      processExtrudingPoint hw hh (pt.2 || nE) g pt.1 s := by
  simp [processPoint, hext]

theorem pep_zero_eq (hw hh : ℝ) (nE : Bool) (g : GLine) (cp : Vec3)
    (s : LoadState) (h : sq_norm s cp = 0) :
    processExtrudingPoint hw hh nE g cp s = s := by
  rw [processExtrudingPoint, if_pos h]

theorem pep_ne_eq (hw hh : ℝ) (nE : Bool) (g : GLine) (cp : Vec3)
    (s : LoadState) (h : ¬ sq_norm s cp = 0) :
    processExtrudingPoint hw hh nE g cp s =
      { s with
        indices := s.indices ++ (extrudePlan hw hh nE s cp).idxs.map storeGLuint,
        index_k := s.index_k + (extrudePlan hw hh nE s cp).idxs.length,
        vertices := s.vertices ++
          vertexChunk (movement_color g) (extrudePlan hw hh nE s cp).verts,
        vertex_k := s.vertex_k + (extrudePlan hw hh nE s cp).verts.length,
        prev_move_normal_x := (extrudePlan hw hh nE s cp).mnx,
        prev_move_normal_y := (extrudePlan hw hh nE s cp).mny,
        prev_move_angle := (extrudePlan hw hh nE s cp).mangle,
        prev_pos := cp,
        prev_extruding := g.extruding } := by
  rw [processExtrudingPoint, if_neg h]

theorem extrudePlan_mangle (hw hh : ℝ) (nE : Bool) (s : LoadState) (cp : Vec3) :
    (extrudePlan hw hh nE s cp).mangle = move_angle s cp := by
  rw [extrudePlan]
  cases nE <;> rfl

theorem extrudePlan_cap_shape (hw hh : ℝ) (s : LoadState) (cp : Vec3)
    (hj : (prevGlineExtruding s.prev_gline || s.prev_extruding) = false) :
    (extrudePlan hw hh true s cp).verts.length = 4 ∧
      (extrudePlan hw hh true s cp).idxs.length = 6 := by
  constructor <;>
    simp [extrudePlan, hj, compute_vertices, triangulate_rectangle]

theorem extrudePlan_join_single_shape (hw hh : ℝ) (s : LoadState) (cp : Vec3)
    (hj : (prevGlineExtruding s.prev_gline || s.prev_extruding) = true)
    (hf : ¬ join_fact s cp < 0.5) :
    (extrudePlan hw hh false s cp).verts.length = 8 ∧
      (extrudePlan hw hh false s cp).idxs.length = 54 ∧
      ((s.vertex_k : ℤ) - 4) ∈ (extrudePlan hw hh false s cp).idxs := by
  refine ⟨?_, ?_, ?_⟩ <;>
    simp [extrudePlan, hj, hf, compute_vertices, triangulate_box,
      triangulate_rectangle]

theorem scenario4_step1 :
    processGline 0.2 0.2 scenario4 0 0 glineZE initState = scenario4_mid := by
  rw [processGline_move_eq 0.2 0.2 scenario4 0 0 glineZE initState rfl rfl]
  rw [show interpolate_arcs glineZE initState.prev_gline =
    [(⟨glineZE.current_x, glineZE.current_y, glineZE.current_z⟩, false)] from rfl]
  simp only [List.foldl_cons, List.foldl_nil]
  rw [processPoint_extr 0.2 0.2 _ glineZE _ initState rfl]
  rw [pep_zero_eq 0.2 0.2 _ glineZE _ initState
    (by norm_num [sq_norm, delta_x, delta_y, initState, glineZE])]
  rfl

theorem scenario4_join_fact : join_fact scenario4_mid cp4 = 1 := by
  have hdx : delta_x scenario4_mid cp4 = 10 := by
    norm_num [delta_x, scenario4_mid, initState, cp4]
  have hdy : delta_y scenario4_mid cp4 = 0 := by
    norm_num [delta_y, scenario4_mid, initState, cp4]
  have hang : move_angle scenario4_mid cp4 = 0 := by
    rw [move_angle, hdx, hdy]
    exact atan2_zero_nonneg 10 (by norm_num)
  rw [join_fact, join_delta_angle, hang]
  rw [show scenario4_mid.prev_move_angle = 0 from rfl]
  rw [show (0 : ℝ) - 0 + 2 * Real.pi = 2 * Real.pi by ring]
  rw [pymod_self (by positivity)]
  norm_num

theorem scenario4_step2_facts :
    (processGline 0.2 0.2 scenario4 0 1 glineX10 scenario4_mid).vertex_k = 8 ∧
      (processGline 0.2 0.2 scenario4 0 1 glineX10 scenario4_mid).indices =
        (extrudePlan 0.2 0.2 false scenario4_mid cp4).idxs.map storeGLuint := by
  rw [processGline_move_eq 0.2 0.2 scenario4 0 1 glineX10 scenario4_mid rfl rfl]
  rw [show interpolate_arcs glineX10 scenario4_mid.prev_gline =
    [(cp4, false)] from rfl]
  simp only [List.foldl_cons, List.foldl_nil]
  rw [processPoint_extr 0.2 0.2 _ glineX10 _ scenario4_mid rfl]
  rw [show ((cp4, false).2 || nextMoveExtruding scenario4 0 1) = false from rfl]
  rw [pep_ne_eq 0.2 0.2 false glineX10 cp4 scenario4_mid
    (by norm_num [sq_norm, delta_x, delta_y, scenario4_mid, initState, cp4])]
  have hshape := extrudePlan_join_single_shape 0.2 0.2 scenario4_mid cp4 rfl
    (by rw [scenario4_join_fact]; norm_num)
  constructor
  · show scenario4_mid.vertex_k +
      (extrudePlan 0.2 0.2 false scenario4_mid cp4).verts.length = 8
    rw [hshape.1]
    rfl
  · show scenario4_mid.indices ++
      (extrudePlan 0.2 0.2 false scenario4_mid cp4).idxs.map storeGLuint =
      (extrudePlan 0.2 0.2 false scenario4_mid cp4).idxs.map storeGLuint
    rfl

theorem scenario4_load_eval :
    (load_data cfg0 scenario4).vertex_k = 8 ∧
      (load_data cfg0 scenario4).indices =
        (extrudePlan 0.2 0.2 false scenario4_mid cp4).idxs.map storeGLuint := by
  have hfold : (scenario4.getD 0 []).enum.foldl
      (fun t p => processGline 0.2 0.2 scenario4 0 p.1 p.2 t) initState =
      processGline 0.2 0.2 scenario4 0 1 glineX10 scenario4_mid := by
    rw [show (scenario4.getD 0 []).enum = [(0, glineZE), (1, glineX10)] from rfl]
    simp only [List.foldl_cons, List.foldl_nil]
    rw [scenario4_step1]
  have h2 := scenario4_step2_facts
  constructor
  · show (load_data cfg0 scenario4).vertex_k = 8
    have : (load_data cfg0 scenario4).vertex_k =
        (processLayer 0.2 0.2 scenario4 0 initState).vertex_k := rfl
    rw [this]
    have hv : (processLayer 0.2 0.2 scenario4 0 initState).vertex_k =
        (processGline 0.2 0.2 scenario4 0 1 glineX10 scenario4_mid).vertex_k := by
      simp only [processLayer, hfold]
      rw [if_pos (show layerHasMovement (scenario4.getD 0 []) = true from rfl)]
    rw [hv, h2.1]
  · have : (load_data cfg0 scenario4).indices =
        (processLayer 0.2 0.2 scenario4 0 initState).indices := rfl
    rw [this]
    have hv : (processLayer 0.2 0.2 scenario4 0 initState).indices =
        (processGline 0.2 0.2 scenario4 0 1 glineX10 scenario4_mid).indices := by
      simp only [processLayer, hfold]
      rw [if_pos (show layerHasMovement (scenario4.getD 0 []) = true from rfl)]
    rw [hv, h2.2]

/-- C4: the index-underflow bug.  On a program whose first
geometry-producing extruding move is preceded by a pure Z/E extruding
move, the join logic computes raw indices from `vertex_k - 4 = -4`; the
`GLuint` store wraps them to values near `2^32`, so the finished index
array contains `2^32 - 4`, which is not less than the final vertex count
8 — the claimed invariant fails on this input. -/
theorem index_buffer_overflow :
    (load_data cfg0 scenario4).vertex_k = 8 ∧
      (2 ^ 32 - 4 : ℕ) ∈ (load_data cfg0 scenario4).indices ∧
      ¬ (∀ v ∈ (load_data cfg0 scenario4).indices,
          v < (load_data cfg0 scenario4).vertex_k) := by
  obtain ⟨hv, hi⟩ := scenario4_load_eval
  have hshape := extrudePlan_join_single_shape 0.2 0.2 scenario4_mid cp4 rfl
    (by rw [scenario4_join_fact]; norm_num)
  have hmem : (2 ^ 32 - 4 : ℕ) ∈ (load_data cfg0 scenario4).indices := by
    rw [hi]
    refine List.mem_map.mpr ⟨(scenario4_mid.vertex_k : ℤ) - 4, hshape.2.2, ?_⟩
    show storeGLuint ((scenario4_mid.vertex_k : ℤ) - 4) = 2 ^ 32 - 4
    decide
  refine ⟨hv, hmem, ?_⟩
  intro hall
  have := hall _ hmem
  rw [hv] at this
  norm_num at this

theorem scenario1_stepA :
    processGline 0.2 0.2 scenario1 0 0 glineE1 initState = scenario1_midA := by
  rw [processGline_move_eq 0.2 0.2 scenario1 0 0 glineE1 initState rfl rfl]
  rw [show interpolate_arcs glineE1 initState.prev_gline = [(cpA, false)] from rfl]
  simp only [List.foldl_cons, List.foldl_nil]
  rw [processPoint_extr 0.2 0.2 _ glineE1 _ initState rfl]
  rw [show ((cpA, false).2 || nextMoveExtruding scenario1 0 0) = true from rfl]
  rw [pep_ne_eq 0.2 0.2 true glineE1 cpA initState
    (by norm_num [sq_norm, delta_x, delta_y, initState, cpA])]
  have hshape := extrudePlan_cap_shape 0.2 0.2 initState cpA rfl
  rw [hshape.1, hshape.2]
  rfl

theorem scenario1_layer0 :
    processLayer 0.2 0.2 scenario1 0 initState = scenario1_L0 := by
  simp only [processLayer]
  rw [show (scenario1.getD 0 []).enum = [(0, glineE1)] from rfl]
  simp only [List.foldl_cons, List.foldl_nil]
  rw [scenario1_stepA]
  rw [if_pos (show layerHasMovement (scenario1.getD 0 []) = true from rfl)]
  rfl

theorem scenario1_prev_angle : scenario1_L0.prev_move_angle = 0 := by
  rw [show scenario1_L0.prev_move_angle =
    (extrudePlan 0.2 0.2 true initState cpA).mangle from rfl]
  rw [extrudePlan_mangle]
  rw [move_angle]
  rw [show delta_y initState cpA = 0 by norm_num [delta_y, initState, cpA]]
  rw [show delta_x initState cpA = 10 by norm_num [delta_x, initState, cpA]]
  exact atan2_zero_nonneg 10 (by norm_num)

theorem scenario1_join_fact : join_fact scenario1_L0 cpB = Real.sqrt 2 / 2 := by
  have hdx : delta_x scenario1_L0 cpB = 0 := by
    norm_num [delta_x, scenario1_L0, scenario1_midA, initState, cpA, cpB]
  have hdy : delta_y scenario1_L0 cpB = 10 := by
    norm_num [delta_y, scenario1_L0, scenario1_midA, initState, cpA, cpB]
  have hang : move_angle scenario1_L0 cpB = Real.pi / 2 := by
    rw [move_angle, hdx, hdy]
    exact atan2_pos_y 10 (by norm_num)
  rw [join_fact, join_delta_angle, hang, scenario1_prev_angle]
  rw [show Real.pi / 2 - 0 + 2 * Real.pi = Real.pi / 2 + 2 * Real.pi by ring]
  rw [pymod_add_self (by positivity) (by positivity)
    (by linarith [Real.pi_pos])]
  rw [show Real.pi / 2 / 2 = Real.pi / 4 by ring]
  rw [Real.cos_pi_div_four]
  exact abs_of_pos (by positivity)

theorem scenario1_fact_ge : ¬ join_fact scenario1_L0 cpB < 0.5 := by
  rw [scenario1_join_fact]
  have h1 : (1 : ℝ) ≤ Real.sqrt 2 := by
    rw [show (1 : ℝ) = Real.sqrt 1 by simp]
    exact Real.sqrt_le_sqrt (by norm_num)
  intro hlt
  norm_num at hlt
  linarith

theorem scenario1_stepB_facts :
    (processGline 0.2 0.2 scenario1 1 0 glineE2 scenario1_L0).count_print_vertices =
        [0, 4, 12] ∧
      (processGline 0.2 0.2 scenario1 1 0 glineE2 scenario1_L0).count_print_indices =
        [0, 6, 60] ∧
      (processGline 0.2 0.2 scenario1 1 0 glineE2 scenario1_L0).layer_stops =
        [0, 1] ∧
      (processGline 0.2 0.2 scenario1 1 0 glineE2 scenario1_L0).travel_vertex_k = 0 ∧
      (processGline 0.2 0.2 scenario1 1 0 glineE2 scenario1_L0).travels = [] := by
  rw [processGline_move_eq 0.2 0.2 scenario1 1 0 glineE2 scenario1_L0 rfl rfl]
  rw [show interpolate_arcs glineE2 scenario1_L0.prev_gline = [(cpB, false)]
    from rfl]
  simp only [List.foldl_cons, List.foldl_nil]
  rw [processPoint_extr 0.2 0.2 _ glineE2 _ scenario1_L0 rfl]
  rw [show ((cpB, false).2 || nextMoveExtruding scenario1 1 0) = false from rfl]
  rw [pep_ne_eq 0.2 0.2 false glineE2 cpB scenario1_L0
    (by norm_num [sq_norm, delta_x, delta_y, scenario1_L0, scenario1_midA,
      initState, cpA, cpB])]
  have hshape := extrudePlan_join_single_shape 0.2 0.2 scenario1_L0 cpB rfl
    scenario1_fact_ge
  rw [hshape.1, hshape.2.1]
  exact ⟨rfl, rfl, rfl, rfl, rfl⟩

theorem scenario1_load_eval :
    (load_data cfg0 scenario1).max_layers = 2 ∧
      (load_data cfg0 scenario1).layer_stops = [0, 1, 2] ∧
      (load_data cfg0 scenario1).count_print_vertices = [0, 4, 12] ∧
      (load_data cfg0 scenario1).travel_vertex_k = 0 ∧
      (load_data cfg0 scenario1).travels = [] := by
  have hB := scenario1_stepB_facts
  have hfold1 : (scenario1.getD 1 []).enum.foldl
      (fun t p => processGline 0.2 0.2 scenario1 1 p.1 p.2 t) scenario1_L0 =
      processGline 0.2 0.2 scenario1 1 0 glineE2 scenario1_L0 := by
    rw [show (scenario1.getD 1 []).enum = [(0, glineE2)] from rfl]
    simp only [List.foldl_cons, List.foldl_nil]
  have hstops1 : (processLayer 0.2 0.2 scenario1 1 scenario1_L0).layer_stops =
      [0, 1, 2] := by
    simp only [processLayer, hfold1]
    rw [if_pos (show layerHasMovement (scenario1.getD 1 []) = true from rfl)]
    show (processGline 0.2 0.2 scenario1 1 0 glineE2 scenario1_L0).layer_stops ++
      [(processGline 0.2 0.2 scenario1 1 0 glineE2
        scenario1_L0).count_print_indices.length - 1] = [0, 1, 2]
    rw [hB.2.2.1, hB.2.1]
    rfl
  have hcpv1 : (processLayer 0.2 0.2 scenario1 1
      scenario1_L0).count_print_vertices = [0, 4, 12] := by
    simp only [processLayer, hfold1]
    rw [if_pos (show layerHasMovement (scenario1.getD 1 []) = true from rfl)]
    exact hB.1
  have htv1 : (processLayer 0.2 0.2 scenario1 1 scenario1_L0).travel_vertex_k = 0 := by
    simp only [processLayer, hfold1]
    rw [if_pos (show layerHasMovement (scenario1.getD 1 []) = true from rfl)]
    exact hB.2.2.2.1
  have htr1 : (processLayer 0.2 0.2 scenario1 1 scenario1_L0).travels = [] := by
    simp only [processLayer, hfold1]
    rw [if_pos (show layerHasMovement (scenario1.getD 1 []) = true from rfl)]
    exact hB.2.2.2.2
  have hchain : load_data_upto cfg0 scenario1 2 =
      processLayer 0.2 0.2 scenario1 1 (processLayer 0.2 0.2 scenario1 0 initState) :=
    rfl
  rw [scenario1_layer0] at hchain
  refine ⟨?_, ?_, ?_, ?_, ?_⟩
  · show (load_data_upto cfg0 scenario1 2).layer_stops.length - 1 = 2
    rw [hchain, hstops1]
    rfl
  · show (load_data_upto cfg0 scenario1 2).layer_stops = [0, 1, 2]
    rw [hchain, hstops1]
  · show (load_data_upto cfg0 scenario1 2).count_print_vertices = [0, 4, 12]
    rw [hchain, hcpv1]
  · show (load_data_upto cfg0 scenario1 2).travel_vertex_k = 0
    rw [hchain, htv1]
  · show (load_data_upto cfg0 scenario1 2).travels = []
    rw [hchain, htr1]

/-- C3 counterexample: the claim "at least 8 print vertices per move"
fails on the 2-layer scenario — the first move generates only 4 print
vertices (its end cross-section is shared with the join to the second
move). -/
theorem scenario1_per_move_counterexample :
    ¬ ((load_data cfg0 scenario1).max_layers = 2 ∧
        (load_data cfg0 scenario1).layer_stops = [0, 1, 2] ∧
        (∀ j, j < 2 →
          8 ≤ (load_data cfg0 scenario1).count_print_vertices.getD (j + 1) 0 -
            (load_data cfg0 scenario1).count_print_vertices.getD j 0) ∧
        (load_data cfg0 scenario1).travel_vertex_k = 0) := by
  intro h
  have h0 := h.2.2.1 0 (by norm_num)
  rw [scenario1_load_eval.2.2.1] at h0
  norm_num [List.getD] at h0

/-- C3 (amended): loading the 2-layer scenario gives `max_layers = 2`,
exactly two `layer_stops` entries beyond the initial 0, at least 4 print
vertices for the first move and at least 8 for the second (the first
move's end cross-section is shared with the join), and zero travel
vertices. -/
theorem scenario1_expectations :
    (load_data cfg0 scenario1).max_layers = 2 ∧
      (load_data cfg0 scenario1).layer_stops = [0, 1, 2] ∧
      4 ≤ (load_data cfg0 scenario1).count_print_vertices.getD 1 0 -
        (load_data cfg0 scenario1).count_print_vertices.getD 0 0 ∧
      8 ≤ (load_data cfg0 scenario1).count_print_vertices.getD 2 0 -
        (load_data cfg0 scenario1).count_print_vertices.getD 1 0 ∧
      (load_data cfg0 scenario1).travel_vertex_k = 0 := by
  obtain ⟨h1, h2, h3, h4, h5⟩ := scenario1_load_eval
  refine ⟨h1, h2, ?_, ?_, h4⟩
  · rw [h3]
    norm_num [List.getD]
  · rw [h3]
    norm_num [List.getD]

end Printrun
